import Mathlib

/-!
Shallow embedding of the Moonside-Lamp BLE control client
(`color.py`, `theme.py`, `ble_lamp.py`, `main.py`).

Conventions of the embedding:
* Python `int` is Lean `Int`; list lengths and counts are `Nat`.
* Python `str` is Lean `String`; f-string pieces become explicit appends.
* A Python method that can `raise` becomes a function into `Except Err _`,
  where `Err` collects every exception the embedded code can raise.
* The BLE transport is an external collaborator: its observable outcomes
  (whether a connect attempt succeeds, whether closing the link raises,
  the monotonic clock readings) are passed in as explicit parameters.
* Commands handed to the transport are accumulated in a `List String`
  rather than written to a characteristic.
-/

namespace Moonside

/-- Every exception the embedded code can raise, structured instead of
Python's stringly-typed `ValueError` / `RuntimeError` messages. -/
inductive Err
  /-- `THEME_METADATA[name]` on a missing key (Python `KeyError`). -/
  | keyError (name : String)
  /-- "Theme X requires N color(s), but got M." -/
  | shapeMismatch (theme : String) (expected actual : Nat)
  /-- "X requires 1 numeric parameter." -/
  | missingParameter (theme : String)
  /-- "X does not accept a numeric parameter." -/
  | unexpectedParameter (theme : String)
  /-- "Brightness must be in the range 0..120." -/
  | brightnessOutOfRange
  /-- "Pixel brightness must be in the range 0..120." -/
  | pixelBrightnessOutOfRange
  /-- "Failed to reconnect to lamp ... after N attempts." -/
  | reconnectExhausted (attempts : Nat)
  /-- "Device ... not found during scan." -/
  | deviceNotFound
  /-- "Unable to find characteristic ..." -/
  | characteristicNotFound
  /-- "Not connected to the lamp (after reconnection attempts)." -/
  | notConnected
  /-- A failure raised by the transport's `disconnect()` call. -/
  | closeFailed
  /-- "Start and end color lists must have the same length." -/
  | lengthMismatch
  /-- Python `ZeroDivisionError` from `elapsed_time / duration`. -/
  | divisionByZero
  /-- Model artifact: the animation loop ran out of fuel (the Python
  loop would still be running). -/
  | outOfFuel
  deriving DecidableEq, Repr

/-! ## color.py -/

/-- `RGBColor`: an RGB triplet; channels are Python ints. -/
structure RGBColor where
  r : Int
  g : Int
  b : Int
  deriving DecidableEq, Repr

/-- `RGBColor.to_commastr`: `f"{self.r},{self.g},{self.b},"`. -/
def RGBColor.to_commastr (c : RGBColor) : String :=
  toString c.r ++ "," ++ toString c.g ++ "," ++ toString c.b ++ ","

/-! ## theme.py -/

/-- `ThemeName`: the closed enumeration of theme identifiers. -/
inductive ThemeName
  | THEME1 | THEME2 | THEME4 | THEME5
  | GRADIENT1 | PULSING1 | TWINKLE1 | WAVE1
  | BEAT2 | COLORDROP1 | GRADIENT2 | LAVA1
  | BEAT1 | BEAT3 | FIRE2 | PALETTE2 | THEME3
  deriving DecidableEq, Repr, Fintype

/-- `ThemeName.value`: the exact firmware string of each enum member. -/
def ThemeName.value : ThemeName → String
  | .THEME1 => "THEME1"
  | .THEME2 => "THEME2"
  | .THEME4 => "THEME4"
  | .THEME5 => "THEME5"
  | .GRADIENT1 => "GRADIENT1"
  | .PULSING1 => "PULSING1"
  | .TWINKLE1 => "TWINKLE1"
  | .WAVE1 => "WAVE1"
  | .BEAT2 => "BEAT2"
  | .COLORDROP1 => "COLORDROP1"
  | .GRADIENT2 => "GRADIENT2"
  | .LAVA1 => "LAVA1"
  | .BEAT1 => "BEAT1"
  | .BEAT3 => "BEAT3"
  | .FIRE2 => "FIRE2"
  | .PALETTE2 => "PALETTE2"
  | .THEME3 => "THEME3"

/-- One entry of `THEME_METADATA`: `{"num_colors": ..., "has_numeric": ...}`. -/
structure ThemeMeta where
  num_colors : Nat
  has_numeric : Bool
  deriving DecidableEq, Repr

/-- `THEME_METADATA`, in source order, as an association list keyed by
`ThemeName` (the Python source is a dict literal). -/
def THEME_METADATA : List (ThemeName × ThemeMeta) :=
  [ (.PALETTE2,   ⟨6, false⟩),
    (.FIRE2,      ⟨4, false⟩),
    (.THEME1,     ⟨2, false⟩),
    (.THEME2,     ⟨2, false⟩),
    (.THEME3,     ⟨6, false⟩),
    (.THEME4,     ⟨2, false⟩),
    (.THEME5,     ⟨2, false⟩),
    (.WAVE1,      ⟨2, false⟩),
    (.BEAT1,      ⟨3, false⟩),
    (.BEAT2,      ⟨2, false⟩),
    (.BEAT3,      ⟨3, false⟩),
    (.GRADIENT1,  ⟨2, false⟩),
    (.GRADIENT2,  ⟨3, false⟩),
    (.TWINKLE1,   ⟨2, false⟩),
    (.COLORDROP1, ⟨2, false⟩),
    (.LAVA1,      ⟨2, false⟩),
    (.PULSING1,   ⟨2, false⟩) ]

/-- `ThemeConfig`: a theme name, an optional numeric parameter, and an
ordered list of colors. -/
structure ThemeConfig where
  name : ThemeName
  numeric_param : Option Int := none
  colors : List RGBColor := []
  deriving DecidableEq, Repr

/-- `ThemeConfig.validate`: look up the theme's metadata (a missing key is
Python `KeyError`), check the color count, then check numeric-parameter
presence against `has_numeric`. -/
def ThemeConfig.validate (cfg : ThemeConfig) : Except Err Unit :=
  match THEME_METADATA.lookup cfg.name with
  | none => .error (.keyError cfg.name.value)
  | some meta =>
    if cfg.colors.length ≠ meta.num_colors then
      .error (.shapeMismatch cfg.name.value meta.num_colors cfg.colors.length)
    else if meta.has_numeric ∧ cfg.numeric_param = none then
      .error (.missingParameter cfg.name.value)
    else if ¬meta.has_numeric ∧ cfg.numeric_param ≠ none then
      .error (.unexpectedParameter cfg.name.value)
    else
      .ok ()

/-- Python `s.endswith(suffixStr)` on the character lists of the strings. -/
def pyEndsWith (s t : String) : Bool :=
  t.data.isSuffixOf s.data

/-- The `parts` list built by `to_command_string`: the optional numeric
parameter's decimal string, then each color's `to_commastr`. -/
def ThemeConfig.parts (cfg : ThemeConfig) : List String :=
  (match cfg.numeric_param with
   | some p => [toString p]
   | none => []) ++ cfg.colors.map RGBColor.to_commastr

/-- `ThemeConfig.to_command_string`: validate first, then build
`"THEME." + name + "."` followed by the joined parts, appending a
trailing comma only if the joined parts do not already end with one. -/
def ThemeConfig.to_command_string (cfg : ThemeConfig) : Except Err String := do
  cfg.validate
  let head := "THEME." ++ cfg.name.value ++ "."
  let param_str := String.join cfg.parts
  let param_str := if ¬pyEndsWith param_str "," then param_str ++ "," else param_str
  return head ++ param_str

/-! ## ble_lamp.py -/

/-- Left-pad a string with zeros to the given total width
(no-op if already at least that wide). -/
def leftPadZeros (w : Nat) (s : String) : String :=
  String.mk (List.replicate (w - s.length) (Char.ofNat 48)) ++ s

/-- Python's `f"{n:03d}"`: minimum field width 3, zero-filled, the sign
(for a negative value) counting toward the width. -/
def pad3 (n : Int) : String :=
  if n < 0 then "-" ++ leftPadZeros 2 (toString n.natAbs)
  else leftPadZeros 3 (toString n.natAbs)

/-- `MoonsideLamp.set_brightness`: range-check 0..120, then build
`f"BRIGH{brightness:03d}"`. -/
def set_brightness_cmd (brightness : Int) : Except Err String :=
  if ¬(0 ≤ brightness ∧ brightness ≤ 120) then .error .brightnessOutOfRange
  else .ok ("BRIGH" ++ pad3 brightness)

/-- `MoonsideLamp.set_color`: build
`f"COLOR{color.r:03d}{color.g:03d}{color.b:03d}"`, then, if a brightness
argument was supplied, append `f" {brightness}"` — with no range check. -/
def set_color_cmd (color : RGBColor) (brightness : Option Int) : String :=
  let cmd := "COLOR" ++ pad3 color.r ++ pad3 color.g ++ pad3 color.b
  match brightness with
  | some br => cmd ++ " " ++ toString br
  | none => cmd

/-- The connection-relevant fields of a `MoonsideLamp`: whether
`self.client` is non-`None`, whether that client's `is_connected` is true,
and whether `self.rx_characteristic` is held. -/
structure LampConn where
  clientIsSome : Bool
  clientConnected : Bool
  rxCharSome : Bool
  deriving DecidableEq, Repr

/-- `MoonsideLamp._disconnect`, with the transport's behavior made
explicit: `closeFails` says whether `await self.client.disconnect()`
raises. The method body is `if self.client and self.client.is_connected:
await self.client.disconnect()` followed by `self.client = None`; there is
no try/except, so a raise from the close call propagates before the
assignment runs, and `self.rx_characteristic` is never touched. -/
def disconnectRun (closeFails : Bool) (s : LampConn) : Except Err LampConn :=
  if s.clientIsSome ∧ s.clientConnected then
    if closeFails then .error .closeFailed
    else .ok { s with clientIsSome := false }
  else .ok { s with clientIsSome := false }

/-- Default of the `max_reconnect_attempts` constructor parameter. -/
def defaultMaxReconnectAttempts : Nat := 3

/-- The `while attempts < self.max_reconnect_attempts` loop of
`_ensure_connected`, with the transport's behavior made explicit:
`connectOk k` says whether the `k`-th `self._connect()` call succeeds.
Returns the outcome together with the number of `_connect()` calls made:
each failing attempt is caught and discarded, and exhausting the loop
raises `reconnectExhausted` with `self.max_reconnect_attempts`. -/
def reconnectLoop (connectOk : Nat → Bool) (maxAttempts : Nat) (attempts : Nat) :
    Except Err Unit × Nat :=
  if attempts < maxAttempts then
    if connectOk attempts then (.ok (), 1)
    else
      let rest := reconnectLoop connectOk maxAttempts (attempts + 1)
      (rest.1, rest.2 + 1)
  else (.error (.reconnectExhausted maxAttempts), 0)
termination_by maxAttempts - attempts

/-- `MoonsideLamp._ensure_connected`: a no-op returning immediately when
`self.client and self.client.is_connected`; otherwise run the reconnect
loop starting from `attempts = 0`. Returns the outcome and the number of
`_connect()` calls made. -/
def ensure_connected (clientIsSome clientConnected : Bool)
    (connectOk : Nat → Bool) (maxAttempts : Nat) : Except Err Unit × Nat :=
  if clientIsSome ∧ clientConnected then (.ok (), 0)
  else reconnectLoop connectOk maxAttempts 0

/-- The observable calls a managed `async with MoonsideLamp(...)` session
makes on the lamp object. -/
inductive SessEvent
  | connectCall
  | disconnectCall
  deriving DecidableEq, Repr

/-- The `async with` protocol applied to `MoonsideLamp.__aenter__` /
`__aexit__`: entering awaits `self._connect()` (whose outcome is the
`connectResult` parameter; if it raises, the body never runs and
`__aexit__` is not called); then the body runs (outcome `bodyResult`);
then `__aexit__` awaits `self._disconnect()` exactly once, whether or not
the body raised. `__aexit__` returns `None`, so a body exception is
re-raised after it; an exception raised by `_disconnect` itself (the
`closeFails` case) propagates instead. After a successful `_connect` the
lamp holds a connected client and the characteristic, which is the state
`_disconnect` then runs on. Alongside the outcome, the list of
connect/disconnect calls made is returned. -/
def async_with_lamp (connectResult : Except Err Unit)
    (bodyResult : Except Err Unit) (closeFails : Bool) :
    Except Err Unit × List SessEvent :=
  match connectResult with
  | .error e => (.error e, [.connectCall])
  | .ok () =>
    let events := [SessEvent.connectCall, SessEvent.disconnectCall]
    match disconnectRun closeFails ⟨true, true, true⟩ with
    | .error e => (.error e, events)
    | .ok _ => (bodyResult, events)

/-! ## main.py -/

/-- Python `int(x)` on a rational: truncation toward zero. -/
def pyInt (q : ℚ) : Int :=
  if 0 ≤ q then ⌊q⌋ else ⌈q⌉

/-- One interpolated channel of `animate_theme`:
`int(effect(progress) * (end - start) + start)`. -/
def interpChannel (effect : ℚ → ℚ) (progress : ℚ) (s e : Int) : Int :=
  pyInt (effect progress * ((e : ℚ) - (s : ℚ)) + (s : ℚ))

/-- The `while True` loop of `animate_theme`. The event loop's monotonic
clock is the `clock` parameter, read in call order (`i` is the index of
the next `time()` call; each full iteration reads the clock four times:
`elapsed_time`, `command_start_time`, and twice for
`command_elapsed_time`). `start_time` is the reading taken before the
loop. Commands handed to the lamp are accumulated in `sent`; `sleep`s do
not affect that list and are not modelled. `fuel` bounds the number of
iterations the model unrolls (the Python loop has no such bound). -/
def animateLoop (duration : ℚ) (start_colors end_colors : List RGBColor)
    (start_brightness end_brightness : Int)
    (color_tweening_effect brightness_tweening_effect : ℚ → ℚ)
    (clock : Nat → ℚ) (start_time : ℚ) :
    Nat → Nat → List String → Except Err Unit × List String
  | 0, _, sent => (.error .outOfFuel, sent)
  | fuel + 1, i, sent =>
    let elapsed_time := clock i - start_time
    if duration = 0 then (.error .divisionByZero, sent)
    else
      let progress := min (elapsed_time / duration) 1
      let current_colors := (start_colors.zip end_colors).map fun se =>
        RGBColor.mk
          (interpChannel color_tweening_effect progress se.1.r se.2.r)
          (interpChannel color_tweening_effect progress se.1.g se.2.g)
          (interpChannel color_tweening_effect progress se.1.b se.2.b)
      let current_brightness :=
        interpChannel brightness_tweening_effect progress
          start_brightness end_brightness
      let theme_config : ThemeConfig := ⟨.GRADIENT1, none, current_colors⟩
      match theme_config.to_command_string with
      | .error e => (.error e, sent)
      | .ok themeCmd =>
        let sent := sent ++ [themeCmd]
        match set_brightness_cmd current_brightness with
        | .error e => (.error e, sent)
        | .ok brightCmd =>
          let sent := sent ++ [brightCmd]
          if progress ≥ 1 then (.ok (), sent)
          else animateLoop duration start_colors end_colors
            start_brightness end_brightness
            color_tweening_effect brightness_tweening_effect
            clock start_time fuel (i + 4) sent

/-- `animate_theme`: check that the color lists have the same length
(raising `ValueError` otherwise, before anything is sent), record
`start_time` from the clock, then run the loop. -/
def animate_theme (duration : ℚ) (start_colors end_colors : List RGBColor)
    (start_brightness end_brightness : Int)
    (color_tweening_effect brightness_tweening_effect : ℚ → ℚ)
    (clock : Nat → ℚ) (fuel : Nat) : Except Err Unit × List String :=
  if start_colors.length ≠ end_colors.length then (.error .lengthMismatch, [])
  else
    animateLoop duration start_colors end_colors
      start_brightness end_brightness
      color_tweening_effect brightness_tweening_effect
      clock (clock 0) fuel 1 []

/-! ## State-passing variants for the frame claims

The Python methods below contain no assignment to any field of `self`
(or of the color), so the state-passing translation threads the receiver
through unchanged and returns it as the post-state. -/

/-- State-passing translation of `ThemeConfig.validate`: the body only
reads `self.name`, `self.colors`, `self.numeric_param`. -/
def ThemeConfig.validateS (cfg : ThemeConfig) : Except Err Unit × ThemeConfig :=
  (cfg.validate, cfg)

/-- State-passing translation of `ThemeConfig.to_command_string`: the
body reads fields and builds local strings only. -/
def ThemeConfig.to_command_stringS (cfg : ThemeConfig) :
    Except Err String × ThemeConfig :=
  (cfg.to_command_string, cfg)

/-- State-passing translation of `RGBColor.to_commastr`: the body only
reads the three channels. -/
def RGBColor.to_commastrS (c : RGBColor) : String × RGBColor :=
  (c.to_commastr, c)

/-! ## Spec-side decoders

These are not translated from the source; they state the spec's
"zero-padded to width 3" wire format independently of `pad3`, so the
padding theorem compares the implementation against an external reading
of the digits. -/

/-- Value of a big-endian decimal digit string, accumulator style. -/
def decodeDecimalAux : List Char → Nat → Nat
  | [], acc => acc
  | c :: cs, acc => decodeDecimalAux cs (acc * 10 + (c.toNat - 48))

/-- Value of a decimal digit string (leading zeros allowed). -/
def decodeDecimal (s : String) : Nat := decodeDecimalAux s.data 0

/-- Whether every character of the string is a decimal digit. -/
def isDigits (s : String) : Bool :=
  s.data.all fun c => 48 ≤ c.toNat && c.toNat ≤ 57

/-! ## Helper lemmas -/

theorem pyEndsWith_append (s t u : String) (h : pyEndsWith t u = true) :
    pyEndsWith (s ++ t) u = true := by
  simp only [pyEndsWith, List.isSuffixOf_iff_suffix, String.data_append] at h ⊢
  exact h.trans (List.suffix_append s.data t.data)

theorem pyEndsWith_self (s : String) : pyEndsWith s s = true := by
  simp [pyEndsWith, List.isSuffixOf_iff_suffix]

theorem join_append_one (xs : List String) (x : String) :
    String.join (xs ++ [x]) = String.join xs ++ x := by
  simp [String.join, List.foldl_append]

theorem lookup_mem {α β : Type} [BEq α] [LawfulBEq α] {a : α} {b : β}
    {l : List (α × β)} (h : l.lookup a = some b) : (a, b) ∈ l := by
  induction l with
  | nil => simp [List.lookup] at h
  | cons hd tl ih =>
    rw [List.lookup_cons] at h
    cases hbe : a == hd.1 with
    | true =>
      rw [hbe] at h
      simp only [Option.some.injEq] at h
      have hhd : hd = (a, b) := by
        cases hd
        have := eq_of_beq hbe
        simp_all
      rw [hhd]
      exact List.mem_cons_self _ _
    | false =>
      rw [hbe] at h
      exact List.mem_cons_of_mem _ (ih h)

theorem to_commastr_endsWith (c : RGBColor) :
    pyEndsWith c.to_commastr "," = true :=
  pyEndsWith_append _ _ _ (pyEndsWith_self ",")

/-- Every cataloged theme takes at least two colors and no numeric
parameter. -/
theorem meta_facts {t : ThemeName} {m : ThemeMeta}
    (h : THEME_METADATA.lookup t = some m) :
    2 ≤ m.num_colors ∧ m.has_numeric = false := by
  have hall : ∀ p ∈ THEME_METADATA,
      2 ≤ p.2.num_colors ∧ p.2.has_numeric = false := by decide
  exact hall (t, m) (lookup_mem h)

theorem validate_ok_iff (cfg : ThemeConfig) {m : ThemeMeta}
    (h : THEME_METADATA.lookup cfg.name = some m) :
    cfg.validate = .ok () ↔
      (cfg.colors.length = m.num_colors ∧
        (m.has_numeric = true ↔ cfg.numeric_param ≠ none)) := by
  unfold ThemeConfig.validate
  rw [h]
  by_cases h1 : cfg.colors.length = m.num_colors <;>
    by_cases h2 : m.has_numeric <;>
      cases hp : cfg.numeric_param <;>
        simp_all

/-- A config that validates has no numeric parameter and a nonempty
color list (since every cataloged theme wants at least two colors). -/
theorem validate_ok_shape (cfg : ThemeConfig) (h : cfg.validate = .ok ()) :
    cfg.numeric_param = none ∧ cfg.colors ≠ [] := by
  match hl : THEME_METADATA.lookup cfg.name with
  | none => unfold ThemeConfig.validate at h; rw [hl] at h; simp at h
  | some m =>
    have hm := meta_facts hl
    have hok := (validate_ok_iff cfg hl).mp h
    constructor
    · rcases hok with ⟨-, hiff⟩
      by_cases hp : cfg.numeric_param = none
      · exact hp
      · have := hiff.mpr hp
        rw [hm.2] at this
        exact absurd this (by simp)
    · intro hnil
      rw [hnil] at hok
      simp at hok
      have h1 := hok.1
      have h2 := hm.1
      omega

theorem parts_endsWith (cfg : ThemeConfig) (h : cfg.colors ≠ []) :
    pyEndsWith (String.join cfg.parts) "," = true := by
  rcases List.eq_nil_or_concat cfg.colors with hnil | ⟨xs, x, hx⟩
  · exact absurd hnil h
  · unfold ThemeConfig.parts
    rw [hx, List.concat_eq_append, List.map_append, List.map_singleton,
      ← List.append_assoc, join_append_one]
    exact pyEndsWith_append _ _ _ (to_commastr_endsWith x)

/-- On a config that validates, the joined parts already end with a comma,
so `to_command_string` appends nothing extra. -/
theorem to_command_string_ok (cfg : ThemeConfig) (h : cfg.validate = .ok ()) :
    cfg.to_command_string =
      .ok ("THEME." ++ cfg.name.value ++ "." ++ String.join cfg.parts) := by
  have hnil := (validate_ok_shape cfg h).2
  have hend := parts_endsWith cfg hnil
  unfold ThemeConfig.to_command_string
  rw [h]
  simp [hend]

theorem to_command_string_err (cfg : ThemeConfig) (e : Err)
    (h : cfg.validate = .error e) : cfg.to_command_string = .error e := by
  unfold ThemeConfig.to_command_string
  rw [h]
  rfl

theorem twinkle_validate (c1 c2 : RGBColor) :
    (ThemeConfig.mk .TWINKLE1 none [c1, c2]).validate = .ok () := rfl

theorem twinkle_cmd (c1 c2 : RGBColor) :
    (ThemeConfig.mk .TWINKLE1 none [c1, c2]).to_command_string =
      .ok ("THEME.TWINKLE1." ++ c1.to_commastr ++ c2.to_commastr) := by
  rw [to_command_string_ok _ (twinkle_validate c1 c2)]
  apply congrArg
  apply String.ext
  simp [ThemeConfig.parts, String.join, ThemeName.value]

set_option maxRecDepth 10000 in
/-- `pad3` on 0..255 produces exactly three decimal digits denoting the
input. -/
theorem pad3_nat : ∀ n : Nat, n < 256 →
    ((pad3 (n : Int)).length = 3 ∧ isDigits (pad3 (n : Int)) = true ∧
      decodeDecimal (pad3 (n : Int)) = n) := by decide

/-- When every connect attempt fails, the reconnect loop makes one call
per remaining attempt and then reports exhaustion. -/
theorem reconnectLoop_all_fail (f : Nat → Bool) (hf : ∀ k, f k = false)
    (maxA : Nat) : ∀ d a, maxA - a = d →
    reconnectLoop f maxA a = (.error (.reconnectExhausted maxA), d) := by
  intro d
  induction d with
  | zero =>
    intro a ha
    unfold reconnectLoop
    have hge : ¬ a < maxA := by omega
    simp [hge]
  | succ n ih =>
    intro a ha
    unfold reconnectLoop
    have hlt : a < maxA := by omega
    rw [if_pos hlt, hf a]
    simp only [Bool.false_eq_true, if_false]
    rw [ih (a + 1) (by omega)]

/-! ## Claims -/

/-- Claim C1: for every `ThemeConfig` that validates against its theme's
catalog entry, `to_command_string` returns exactly `"THEME."`, the theme
name, `"."`, the numeric parameter's unpadded decimal string if present,
then each color's `"R,G,B,"` serialization in sequence order; `validate`
runs first, so an invalid config raises that validation error and
produces no output; and in particular
`ThemeConfig(TWINKLE1, colors=[c1, c2])` serializes to
`"THEME.TWINKLE1." ++ c1.to_commastr ++ c2.to_commastr`. -/
theorem C1_to_command_string_spec :
    (∀ cfg : ThemeConfig, cfg.validate = .ok () →
      cfg.to_command_string = .ok ("THEME." ++ cfg.name.value ++ "." ++
        (cfg.numeric_param.elim "" toString) ++
        String.join (cfg.colors.map RGBColor.to_commastr)))
    ∧ (∀ (cfg : ThemeConfig) (e : Err), cfg.validate = .error e →
        cfg.to_command_string = .error e)
    ∧ (∀ c1 c2 : RGBColor,
        (ThemeConfig.mk .TWINKLE1 none [c1, c2]).to_command_string =
          .ok ("THEME.TWINKLE1." ++ c1.to_commastr ++ c2.to_commastr)) := by
  refine ⟨?_, to_command_string_err, twinkle_cmd⟩
  intro cfg h
  have hnone := (validate_ok_shape cfg h).1
  rw [to_command_string_ok cfg h]
  apply congrArg
  apply String.ext
  simp [ThemeConfig.parts, hnone]

/-- Witness for C1 at the spec's example input. -/
theorem C1_witness :
    (ThemeConfig.mk .TWINKLE1 none [⟨255, 0, 0⟩, ⟨0, 0, 255⟩]).validate = .ok ()
    ∧ (ThemeConfig.mk .TWINKLE1 none [⟨255, 0, 0⟩, ⟨0, 0, 255⟩]).to_command_string =
        .ok "THEME.TWINKLE1.255,0,0,0,0,255," := by
  refine ⟨rfl, ?_⟩
  have h := C1_to_command_string_spec.1
    (ThemeConfig.mk .TWINKLE1 none [⟨255, 0, 0⟩, ⟨0, 0, 255⟩]) rfl
  rw [h]
  rfl

/-- Claim C2: `_ensure_connected` is a no-op when the client is present
and the transport reports the link alive; otherwise it calls `_connect`
up to `max_reconnect_attempts` times (default 3), discarding each
failure, and when every attempt fails it makes exactly
`max_reconnect_attempts` calls and raises `reconnectExhausted` reporting
that count. -/
theorem C2_ensure_connected_spec :
    (∀ (f : Nat → Bool) (maxA : Nat),
      ensure_connected true true f maxA = (.ok (), 0))
    ∧ (∀ (cs cc : Bool) (f : Nat → Bool) (maxA : Nat),
        (∀ k, f k = false) → ¬(cs = true ∧ cc = true) →
        ensure_connected cs cc f maxA =
          (.error (.reconnectExhausted maxA), maxA))
    ∧ defaultMaxReconnectAttempts = 3 := by
  refine ⟨?_, ?_, rfl⟩
  · intro f maxA
    simp [ensure_connected]
  · intro cs cc f maxA hf hnc
    unfold ensure_connected
    rw [if_neg hnc]
    exact reconnectLoop_all_fail f hf maxA maxA 0 rfl

/-- Witness for C2: with `max_reconnect_attempts = 3` and an
always-failing transport, exactly 3 attempts are made before
`reconnectExhausted 3`; an already-connected lamp makes none. -/
theorem C2_witness :
    ensure_connected true true (fun _ => false) 3 = (.ok (), 0)
    ∧ ensure_connected false false (fun _ => false) 3 =
        (.error (.reconnectExhausted 3), 3) :=
  ⟨C2_ensure_connected_spec.1 (fun _ => false) 3,
   C2_ensure_connected_spec.2.1 false false (fun _ => false) 3
     (fun _ => rfl) (by simp)⟩

/-- Counterexample to claim C3: with a connected client whose transport
close call raises, `_disconnect` propagates the failure (there is no
try/except around the close), and even when the close succeeds the
write-characteristic reference is left held, contradicting "never
propagates a transport close failure" and "always clears both
references". -/
theorem C3_counterexample :
    disconnectRun true ⟨true, true, true⟩ = .error .closeFailed
    ∧ disconnectRun false ⟨true, true, true⟩ = .ok ⟨false, true, true⟩ :=
  ⟨rfl, rfl⟩

/-- Claim C3 as amended: when the transport close succeeds (or nothing
was connected) `_disconnect` clears the client reference; when the close
raises while a connected client is held the error propagates (and the
client reference is not cleared); and whenever `_disconnect` returns
normally the client reference is cleared but the write-characteristic
reference is left exactly as it was. -/
theorem C3_disconnect_amended :
    (∀ s : LampConn, disconnectRun false s = .ok { s with clientIsSome := false })
    ∧ (∀ s : LampConn, s.clientIsSome = true → s.clientConnected = true →
        disconnectRun true s = .error .closeFailed)
    ∧ (∀ (b : Bool) (s s2 : LampConn), disconnectRun b s = .ok s2 →
        s2.rxCharSome = s.rxCharSome ∧ s2.clientIsSome = false) := by
  refine ⟨?_, ?_, ?_⟩
  · intro s
    unfold disconnectRun
    by_cases h : s.clientIsSome = true ∧ s.clientConnected = true <;> simp [h]
  · intro s h1 h2
    unfold disconnectRun
    simp [h1, h2]
  · intro b s s2 h
    unfold disconnectRun at h
    by_cases hc : s.clientIsSome = true ∧ s.clientConnected = true
    · rw [if_pos hc] at h
      cases b with
      | true => simp_all
      | false =>
        simp only [Bool.false_eq_true, if_false, Except.ok.injEq] at h
        rw [← h]
        exact ⟨rfl, rfl⟩
    · rw [if_neg hc] at h
      simp at h
      rw [← h]
      exact ⟨rfl, rfl⟩

/-- Witness for C3 (amended) at a connected state. -/
theorem C3_witness :
    disconnectRun false ⟨true, true, true⟩ = .ok ⟨false, true, true⟩
    ∧ disconnectRun true ⟨true, true, true⟩ = .error .closeFailed :=
  ⟨C3_disconnect_amended.1 ⟨true, true, true⟩,
   C3_disconnect_amended.2.1 ⟨true, true, true⟩ rfl rfl⟩

/-- Counterexample to claim C4: `animate_theme` with `duration = 0` and
equal-length color lists raises a division-by-zero error on the first
`progress` computation and sends no theme command and no brightness
command, rather than sending one of each with the end values. -/
theorem C4_counterexample :
    animate_theme 0 [⟨0, 0, 255⟩, ⟨0, 255, 0⟩] [⟨255, 165, 0⟩, ⟨128, 0, 128⟩]
      20 120 id id (fun _ => 0) 5 = (.error .divisionByZero, []) := rfl

/-- Claim C4 as amended: `animate_theme` with `duration = 0` and
equal-length color lists raises a division-by-zero error while computing
`progress = elapsed_time / duration` in the first iteration, before any
theme or brightness command is sent. -/
theorem C4_duration_zero_raises :
    ∀ (sc ec : List RGBColor) (sb eb : Int) (ce be : ℚ → ℚ)
      (clock : Nat → ℚ) (fuel : Nat),
      sc.length = ec.length → 0 < fuel →
      animate_theme 0 sc ec sb eb ce be clock fuel =
        (.error .divisionByZero, []) := by
  intro sc ec sb eb ce be clock fuel hlen hfuel
  unfold animate_theme
  rw [if_neg (by omega)]
  cases fuel with
  | zero => omega
  | succ n =>
    unfold animateLoop
    simp

/-- Witness for C4 (amended) at a concrete input. -/
theorem C4_witness :
    animate_theme 0 [⟨0, 0, 255⟩] [⟨255, 165, 0⟩] 20 120 id id
      (fun _ => 0) 3 = (.error .divisionByZero, []) :=
  C4_duration_zero_raises [⟨0, 0, 255⟩] [⟨255, 165, 0⟩] 20 120 id id
    (fun _ => 0) 3 rfl (by decide)

/-- Claim C5: `validate` raises `shapeMismatch` with the expected and
actual counts exactly when the color count differs from the catalog's
required count; with matching counts it raises `missingParameter`
exactly when the catalog requires a numeric parameter and none is
present, `unexpectedParameter` exactly when it accepts none and one is
present, and succeeds otherwise; in particular
`ThemeConfig(TWINKLE1, colors=[c])` fails with
`shapeMismatch(expected = 2, actual = 1)`. -/
theorem C5_validate_spec :
    (∀ (cfg : ThemeConfig) (m : ThemeMeta),
      THEME_METADATA.lookup cfg.name = some m →
      (cfg.validate =
          .error (.shapeMismatch cfg.name.value m.num_colors cfg.colors.length)
        ↔ cfg.colors.length ≠ m.num_colors)
      ∧ (cfg.colors.length = m.num_colors →
          ((cfg.validate = .error (.missingParameter cfg.name.value)
              ↔ (m.has_numeric = true ∧ cfg.numeric_param = none))
           ∧ (cfg.validate = .error (.unexpectedParameter cfg.name.value)
              ↔ (m.has_numeric = false ∧ cfg.numeric_param ≠ none))
           ∧ (cfg.validate = .ok ()
              ↔ (m.has_numeric = true ↔ cfg.numeric_param ≠ none)))))
    ∧ (∀ c : RGBColor,
        (ThemeConfig.mk .TWINKLE1 none [c]).validate =
          .error (.shapeMismatch "TWINKLE1" 2 1)) := by
  constructor
  · intro cfg m hl
    unfold ThemeConfig.validate
    rw [hl]
    by_cases h1 : cfg.colors.length = m.num_colors <;>
      by_cases h2 : m.has_numeric <;>
        cases hp : cfg.numeric_param <;> simp_all
  · intro c
    rfl

/-- Witness for C5 at the spec's example input. -/
theorem C5_witness :
    (ThemeConfig.mk .TWINKLE1 none [⟨255, 0, 0⟩]).validate =
      .error (.shapeMismatch "TWINKLE1" 2 1) := by
  have h := (C5_validate_spec.1
    (ThemeConfig.mk .TWINKLE1 none [⟨255, 0, 0⟩]) ⟨2, false⟩ rfl).1
  exact h.mpr (by decide)

/-- Claim C6: in a managed session whose `_connect` succeeds, the session
makes the connect call on entry and exactly one `_disconnect` call on
exit whatever the body does; and (when the transport close does not
itself fail) an error raised by the body propagates to the caller after
that single disconnect. -/
theorem C6_scoped_session :
    ∀ (body : Except Err Unit) (closeFails : Bool),
      ((async_with_lamp (.ok ()) body closeFails).2.count .disconnectCall = 1)
      ∧ ((async_with_lamp (.ok ()) body closeFails).2.count .connectCall = 1)
      ∧ (closeFails = false →
          (async_with_lamp (.ok ()) body closeFails).1 = body) := by
  intro body closeFails
  cases closeFails <;> simp [async_with_lamp, disconnectRun, List.count_cons]

/-- Witness for C6: a failing body still sees exactly one disconnect and
its error propagates. -/
theorem C6_witness :
    ((async_with_lamp (.ok ()) (.error .notConnected) false).2.count
        .disconnectCall = 1)
    ∧ ((async_with_lamp (.ok ()) (.error .notConnected) false).1 =
        .error .notConnected) :=
  ⟨(C6_scoped_session (.error .notConnected) false).1,
   (C6_scoped_session (.error .notConnected) false).2.2 rfl⟩

/-- Claim C7: for channels in 0..255, `set_color` builds exactly
`"COLOR"` followed by three 3-digit zero-padded decimal fields denoting
r, g, b, with nothing after them when brightness is omitted; a supplied
brightness appends a single space and its raw decimal string, and is not
range-validated (the command is built for every integer brightness). -/
theorem C7_set_color_spec :
    ∀ r g b : Nat, r ≤ 255 → g ≤ 255 → b ≤ 255 →
    ∃ sr sg sb : String,
      set_color_cmd ⟨(r : Int), (g : Int), (b : Int)⟩ none =
        "COLOR" ++ sr ++ sg ++ sb
      ∧ sr.length = 3 ∧ sg.length = 3 ∧ sb.length = 3
      ∧ isDigits sr = true ∧ isDigits sg = true ∧ isDigits sb = true
      ∧ decodeDecimal sr = r ∧ decodeDecimal sg = g ∧ decodeDecimal sb = b
      ∧ (∀ br : Int, set_color_cmd ⟨(r : Int), (g : Int), (b : Int)⟩ (some br) =
          set_color_cmd ⟨(r : Int), (g : Int), (b : Int)⟩ none ++ " " ++
            toString br) := by
  intro r g b hr hg hb
  have pr := pad3_nat r (by omega)
  have pg := pad3_nat g (by omega)
  have pb := pad3_nat b (by omega)
  exact ⟨pad3 r, pad3 g, pad3 b, rfl, pr.1, pg.1, pb.1, pr.2.1, pg.2.1,
    pb.2.1, pr.2.2, pg.2.2, pb.2.2, fun br => rfl⟩

/-- Witness for C7 at the docstring's example color, including a
brightness argument (and the unvalidated nature of it). -/
theorem C7_witness :
    set_color_cmd ⟨255, 0, 255⟩ (some 60) =
      set_color_cmd ⟨255, 0, 255⟩ none ++ " " ++ toString (60 : Int)
    ∧ set_color_cmd ⟨255, 0, 255⟩ none = "COLOR255000255"
    ∧ set_color_cmd ⟨255, 0, 255⟩ (some 200) = "COLOR255000255 200" := by
  obtain ⟨sr, sg, sb, h1, -, -, -, -, -, -, -, -, -, hbr⟩ :=
    C7_set_color_spec 255 0 255 (by decide) (by decide) (by decide)
  exact ⟨hbr 60, rfl, rfl⟩

/-- Claim C8: every `ThemeName` has exactly one catalog entry, every
entry requires at least one color and accepts no numeric parameter; so
for every config that validates, the joined parameter string already
ends with a comma and `to_command_string`'s extra-trailing-comma branch
is not taken. -/
theorem C8_catalog_invariants :
    (∀ t : ThemeName, (THEME_METADATA.lookup t).isSome = true)
    ∧ (∀ t : ThemeName, (THEME_METADATA.countP fun p => p.1 == t) = 1)
    ∧ (∀ p ∈ THEME_METADATA, 1 ≤ p.2.num_colors ∧ p.2.has_numeric = false)
    ∧ (∀ cfg : ThemeConfig, cfg.validate = .ok () →
        pyEndsWith (String.join cfg.parts) "," = true
        ∧ cfg.to_command_string =
            .ok ("THEME." ++ cfg.name.value ++ "." ++ String.join cfg.parts)) := by
  refine ⟨by decide, by decide, by decide, ?_⟩
  intro cfg h
  exact ⟨parts_endsWith cfg (validate_ok_shape cfg h).2,
    to_command_string_ok cfg h⟩

/-- Witness for C8 at a concrete theme and config. -/
theorem C8_witness :
    (THEME_METADATA.lookup ThemeName.TWINKLE1).isSome = true
    ∧ (THEME_METADATA.countP fun p => p.1 == ThemeName.TWINKLE1) = 1
    ∧ pyEndsWith
        (String.join (ThemeConfig.mk .GRADIENT1 none [⟨1, 2, 3⟩, ⟨4, 5, 6⟩]).parts)
        "," = true :=
  ⟨C8_catalog_invariants.1 .TWINKLE1,
   C8_catalog_invariants.2.1 .TWINKLE1,
   (C8_catalog_invariants.2.2.2
     (ThemeConfig.mk .GRADIENT1 none [⟨1, 2, 3⟩, ⟨4, 5, 6⟩]) rfl).1⟩

/-- Claim C9: `animate_theme` with start and end color lists of different
lengths raises the length-mismatch error before sending anything. -/
theorem C9_length_mismatch :
    ∀ (duration : ℚ) (sc ec : List RGBColor) (sb eb : Int) (ce be : ℚ → ℚ)
      (clock : Nat → ℚ) (fuel : Nat), sc.length ≠ ec.length →
      animate_theme duration sc ec sb eb ce be clock fuel =
        (.error .lengthMismatch, []) := by
  intro duration sc ec sb eb ce be clock fuel h
  unfold animate_theme
  rw [if_pos h]

/-- Witness for C9 at a concrete mismatched input. -/
theorem C9_witness :
    animate_theme 10 [⟨1, 2, 3⟩] [] 20 120 id id (fun _ => 0) 5 =
      (.error .lengthMismatch, []) :=
  C9_length_mismatch 10 [⟨1, 2, 3⟩] [] 20 120 id id (fun _ => 0) 5 (by decide)

/-- Claim C10: `validate`, `to_command_string` and `to_commastr` are pure
observers: the state-passing translations return the receiver unchanged
(the method bodies assign to no field), alongside the same result the
pure versions give, whether that result is a value or an error. -/
theorem C10_pure_observers :
    ∀ (cfg : ThemeConfig) (c : RGBColor),
      (cfg.validateS.2 = cfg ∧ cfg.validateS.1 = cfg.validate)
      ∧ (cfg.to_command_stringS.2 = cfg
          ∧ cfg.to_command_stringS.1 = cfg.to_command_string)
      ∧ (c.to_commastrS.2 = c ∧ c.to_commastrS.1 = c.to_commastr) :=
  fun _ _ => ⟨⟨rfl, rfl⟩, ⟨rfl, rfl⟩, ⟨rfl, rfl⟩⟩

end Moonside
